import Mathlib

/-!
Verification of the NodeTodoAPI data model and HTTP handler contracts.

Sources embedded below: src/server/models/todo_model.js (the todo schema)
and the behaviour exercised by src/server/tests/sever.test.js. The route
handlers (server.js), the user model and the authentication middleware are
not part of the repository snapshot; where a claim depends on them they are
modelled from the specification, and each such definition says so in its
doc comment.
-/

/-- A mongoose schema field declaration as written in
src/server/models/todo_model.js: the field name together with the two
validators that appear there (required, minlength). -/
structure SchemaField where
  name : String
  required : Bool
  minlength : Option Nat
deriving DecidableEq, Repr

/-- The text field of the todo schema
(src/server/models/todo_model.js line 4): a required string of minimum
length 1. -/
def textField : SchemaField :=
  ⟨"text", true, some 1⟩

/-- The todo schema from src/server/models/todo_model.js lines 3-7: text is
required with minlength 1; completed is a boolean defaulting to false;
completedAt is a number defaulting to null. No other field is declared. -/
def todoSchema : List SchemaField :=
  [textField, ⟨"completed", false, none⟩, ⟨"completedAt", false, none⟩]

/-- The names of the fields the todo schema declares. -/
def todoSchemaFieldNames : List String :=
  todoSchema.map SchemaField.name

/-- Mongoose validation of an optional string value against a schema field:
a required field must be present, and a present string must reach the
minlength (for String paths mongoose required also rejects the empty
string; with minlength 1 the two checks agree). -/
def fieldAccepts (f : SchemaField) (v : Option String) : Bool :=
  (!f.required || v.isSome) &&
    (match f.minlength, v with
     | some m, some s => decide (m ≤ s.length)
     | _, _ => true)

/-- A persisted token record: an access kind and the opaque token string
(the spec: tokens are a list of records with access "auth" and a token). -/
structure TokenRec where
  access : String
  token : String
deriving DecidableEq, Repr

/-- Modelled from the spec: the persisted password value (the user model is
absent from src/) is a salted hash, never the plaintext; it is represented
as the salt together with a digest derived deterministically from salt and
password, as a bcrypt string carries its salt alongside the digest. -/
structure HashedPassword where
  salt : String
  digest : String
deriving DecidableEq, Repr

/-- Modelled from the spec: hashing a password with a salt before
persistence (the user model that performs the hashing is absent from
src/). -/
def hashPassword (salt pw : String) : HashedPassword :=
  ⟨salt, "hash." ++ salt ++ "." ++ pw⟩

/-- Modelled from the spec: verifying a plaintext password against the
stored salted hash recomputes the digest using the stored salt. -/
def verifyPassword (pw : String) (h : HashedPassword) : Bool :=
  h.digest == "hash." ++ h.salt ++ "." ++ pw

/-- Modelled from the spec: a User document (the user model is absent from
src/): id, unique email, the salted password hash, and the token list. -/
structure User where
  id : String
  email : String
  password : HashedPassword
  tokens : List TokenRec
deriving DecidableEq, Repr

/-- A Todo document as the route handlers use it: id, text, completed,
completedAt and the owner reference. The ownerId field is modelled from the
spec (every Todo has exactly one owner, and the ownership-scoped tests
require it); the schema in src/server/models/todo_model.js declares no
owner field at all. -/
structure Todo where
  id : String
  text : String
  completed : Bool
  completedAt : Option Int
  ownerId : String
deriving DecidableEq, Repr

/-- The persisted application state: the users and todos collections. -/
structure AppState where
  users : List User
  todos : List Todo
deriving DecidableEq, Repr

/-- A character is a hexadecimal digit. -/
def isHexDigit (c : Char) : Bool :=
  c.isDigit || ('a' ≤ c && c ≤ 'f') || ('A' ≤ c && c ≤ 'F')

/-- Modelled from the spec and the mongodb driver contract: syntactic
validity of an ObjectID as checked by ObjectID.isValid (the handlers that
call it are absent from src/): exactly 24 hexadecimal characters. -/
def isValidObjectId (s : String) : Bool :=
  s.length == 24 && s.toList.all isHexDigit

/-- Replace the first element satisfying p by its image under f, the way a
document store updates a single matching document. -/
def updateFirst (p : α → Bool) (f : α → α) : List α → List α
  | [] => []
  | x :: xs => if p x then f x :: xs else x :: updateFirst p f xs

/-- Modelled from the spec: the authentication middleware (absent from
src/): given the optional x-auth header, find the user whose token list
contains that token under access "auth"; otherwise no user identity is
attached. -/
def authenticate (st : AppState) (xauth : Option String) : Option User :=
  match xauth with
  | none => none
  | some tok =>
      st.users.find? (fun u => u.tokens.any (fun t => t.access == "auth" && t.token == tok))

/-- Modelled from the spec: GET /users/me (server.js is absent from src/):
401 with an empty body when authentication fails, otherwise the
authenticated user's id and email. -/
def getUsersMe (st : AppState) (xauth : Option String) : Nat × Option (String × String) :=
  match authenticate st xauth with
  | none => (401, none)
  | some u => (200, some (u.id, u.email))

/-- Modelled from the spec: POST /todos (server.js is absent from src/):
401 when unauthenticated; the text field is validated against the schema of
src/server/models/todo_model.js (required, minlength 1) and a validation
failure gives 400 leaving the store unchanged; otherwise the todo is
created with completed false, completedAt null, owned by the authenticated
user. -/
def postTodos (st : AppState) (xauth : Option String) (text : Option String)
    (newId : String) : Nat × AppState :=
  match authenticate st xauth with
  | none => (401, st)
  | some u =>
      match text with
      | none => (400, st)
      | some s =>
          if fieldAccepts textField (some s) then
            (200, ⟨st.users, st.todos ++ [⟨newId, s, false, none, u.id⟩]⟩)
          else (400, st)

/-- Modelled from the spec: the ownership-scoped lookup shared by the
/todos/:id handlers: filter by both the todo id and the owner id. -/
def findTodoFor (st : AppState) (u : User) (id : String) : Option Todo :=
  st.todos.find? (fun t => t.id == id && t.ownerId == u.id)

/-- Modelled from the spec: GET /todos/:id (server.js is absent from src/):
401 when unauthenticated; 404 when the id is malformed, when no todo has
that id, or when the todo belongs to another user; otherwise the todo. -/
def getTodo (st : AppState) (xauth : Option String) (id : String) :
    Nat × Option Todo :=
  match authenticate st xauth with
  | none => (401, none)
  | some u =>
      if isValidObjectId id then
        match findTodoFor st u id with
        | none => (404, none)
        | some t => (200, some t)
      else (404, none)

/-- Modelled from the spec: DELETE /todos/:id (server.js is absent from
src/): same scoping as GET; on success the matching todo is removed from
the store and returned. -/
def deleteTodo (st : AppState) (xauth : Option String) (id : String) :
    Nat × Option Todo × AppState :=
  match authenticate st xauth with
  | none => (401, none, st)
  | some u =>
      if isValidObjectId id then
        match findTodoFor st u id with
        | none => (404, none, st)
        | some t =>
            (200, some t,
              ⟨st.users, st.todos.eraseP (fun x => x.id == id && x.ownerId == u.id)⟩)
      else (404, none, st)

/-- The body of a PATCH /todos/:id request: the two fields the handler
picks. -/
structure PatchBody where
  text : Option String
  completed : Option Bool
deriving DecidableEq, Repr

/-- Modelled from the spec: the update PATCH /todos/:id applies: the text
is replaced when given; when completed is set to true the completedAt
timestamp is set to the current time, otherwise completed becomes false and
completedAt is cleared to null. -/
def applyPatch (now : Int) (body : PatchBody) (t : Todo) : Todo :=
  let base : Todo := ⟨t.id, body.text.getD t.text, t.completed, t.completedAt, t.ownerId⟩
  match body.completed with
  | some true => ⟨base.id, base.text, true, some now, base.ownerId⟩
  | _ => ⟨base.id, base.text, false, none, base.ownerId⟩

/-- Modelled from the spec: PATCH /todos/:id (server.js is absent from
src/): same scoping as GET; on success the patched todo replaces the stored
one and is returned. -/
def patchTodo (st : AppState) (xauth : Option String) (id : String)
    (body : PatchBody) (now : Int) : Nat × Option Todo × AppState :=
  match authenticate st xauth with
  | none => (401, none, st)
  | some u =>
      if isValidObjectId id then
        match findTodoFor st u id with
        | none => (404, none, st)
        | some t =>
            (200, some (applyPatch now body t),
              ⟨st.users,
                updateFirst (fun x => x.id == id && x.ownerId == u.id)
                  (fun _ => applyPatch now body t) st.todos⟩)
      else (404, none, st)

/-- Modelled from the spec: email format validation (the user model is
absent from src/): a non-empty address containing an at sign. -/
def validEmail (email : String) : Bool :=
  decide (0 < email.length) && email.toList.any (fun c => c == '@')

/-- Modelled from the spec: POST /users (server.js and the user model are
absent from src/): a duplicate email or an invalid body gives 400 and
creates no user; otherwise the password is hashed with the given salt
before persistence, and a first auth token is issued, persisted and
returned as the x-auth header. -/
def postUsers (st : AppState) (email pw : String) (newId salt tok : String) :
    Nat × Option String × AppState :=
  if st.users.any (fun u => u.email == email) then (400, none, st)
  else if validEmail email && decide (0 < pw.length) then
    (200, some tok,
      ⟨st.users ++ [⟨newId, email, hashPassword salt pw, [⟨"auth", tok⟩]⟩], st.todos⟩)
  else (400, none, st)

/-- Modelled from the spec: POST /users/login (server.js and the user model
are absent from src/): look the user up by email and verify the password
against the stored salted hash; on success a fresh token is appended to the
user's persisted token list and returned as the x-auth header. On failure
no header is returned and no token is stored; the failure status is the one
the repository's own test asserts (sever.test.js line 356 expects 200 with
no x-auth header), since the spec's login section states only the success
path. -/
def postUsersLogin (st : AppState) (email pw : String) (tok : String) :
    Nat × Option String × AppState :=
  match st.users.find? (fun u => u.email == email) with
  | none => (200, none, st)
  | some u =>
      if verifyPassword pw u.password then
        (200, some tok,
          ⟨updateFirst (fun v => v.id == u.id)
              (fun v => ⟨v.id, v.email, v.password, v.tokens ++ [⟨"auth", tok⟩]⟩) st.users,
            st.todos⟩)
      else (200, none, st)

/-- Modelled from the spec: DELETE /users/me/token (server.js is absent
from src/): when authenticated, remove the presented token from the user's
token list; 401 otherwise. -/
def deleteUsersMeToken (st : AppState) (xauth : Option String) : Nat × AppState :=
  match xauth, authenticate st xauth with
  | some tok, some u =>
      (200,
        ⟨updateFirst (fun v => v.id == u.id)
            (fun v => ⟨v.id, v.email, v.password, v.tokens.filter (fun t => t.token != tok)⟩)
            st.users,
          st.todos⟩)
  | _, _ => (401, st)

/-! Helper lemmas about list search and single-document update. -/

theorem find?_skip {α : Type} (p : α → Bool) (pre : List α) (u : α) (post : List α)
    (hpre : ∀ v ∈ pre, p v = false) (hu : p u = true) :
    (pre ++ u :: post).find? p = some u := by
  induction pre with
  | nil => simpa using List.find?_cons_of_pos post hu
  | cons a l ih =>
      have ha : p a = false := hpre a (List.mem_cons_self a l)
      rw [List.cons_append, List.find?_cons_of_neg _ (by simp [ha])]
      exact ih (fun v hv => hpre v (List.mem_cons_of_mem a hv))

theorem updateFirst_skip {α : Type} (p : α → Bool) (f : α → α) (pre : List α) (u : α)
    (post : List α) (hpre : ∀ v ∈ pre, p v = false) (hu : p u = true) :
    updateFirst p f (pre ++ u :: post) = pre ++ f u :: post := by
  induction pre with
  | nil => simp [updateFirst, hu]
  | cons a l ih =>
      have ha : p a = false := hpre a (List.mem_cons_self a l)
      simp only [List.cons_append, updateFirst, ha, Bool.false_eq_true, if_false,
        List.cons.injEq, true_and]
      exact ih (fun v hv => hpre v (List.mem_cons_of_mem a hv))

theorem mem_updateFirst_of_find? {α : Type} (p : α → Bool) (f : α → α) (l : List α)
    (t : α) (h : l.find? p = some t) : f t ∈ updateFirst p f l := by
  induction l with
  | nil => simp [List.find?] at h
  | cons a l ih =>
      by_cases hpa : p a = true
      · rw [List.find?_cons_of_pos _ hpa] at h
        cases h
        simp [updateFirst, hpa]
      · have hpa' : p a = false := by simpa using hpa
        rw [List.find?_cons_of_neg _ (by simp [hpa'])] at h
        simp only [updateFirst, hpa', Bool.false_eq_true, if_false, List.mem_cons]
        exact Or.inr (ih h)

/-! The claim theorems. -/

/-- Claim C4: the todo schema embedded from src/server/models/todo_model.js
declares exactly the fields text, completed and completedAt; it declares no
ownerId (nor any owner reference) field, so a persisted Todo record carries
no owner, against the stated invariant that every Todo carries an ownerId
foreign reference to a User. -/
theorem todoSchema_has_no_owner_field :
    todoSchemaFieldNames = ["text", "completed", "completedAt"] ∧
      todoSchemaFieldNames.contains "ownerId" = false ∧
      todoSchemaFieldNames.contains "_creator" = false :=
  ⟨rfl, rfl, rfl⟩

/-- Claim C7: an authenticated POST /todos whose body lacks a text field or
carries the empty string is rejected with status 400 by the schema
validators of src/server/models/todo_model.js (text is required with
minlength 1) and leaves the store unchanged. -/
theorem post_todos_invalid_text_400 (st : AppState) (xauth : Option String)
    (u : User) (text : Option String) (newId : String)
    (hauth : authenticate st xauth = some u)
    (htext : text = none ∨ text = some "") :
    postTodos st xauth text newId = (400, st) ∧
      textField ∈ todoSchema ∧ textField.required = true ∧
      textField.minlength = some 1 := by
  refine ⟨?_, by simp [todoSchema], rfl, rfl⟩
  cases htext with
  | inl h => subst h; simp [postTodos, hauth]
  | inr h =>
      subst h
      have hv : fieldAccepts textField (some "") = false := by rfl
      simp [postTodos, hauth, hv]

def stA : AppState :=
  ⟨[⟨"u1", "a@b.c", hashPassword "s1" "pw", [⟨"auth", "tokA"⟩]⟩], []⟩

/-- Witness for C7 at a concrete authenticated state and an empty text. -/
theorem post_todos_invalid_text_400_witness :
    postTodos stA (some "tokA") (some "") "aaaaaaaaaaaaaaaaaaaaaaaa" = (400, stA) ∧
      textField ∈ todoSchema ∧ textField.required = true ∧
      textField.minlength = some 1 :=
  post_todos_invalid_text_400 stA (some "tokA")
    ⟨"u1", "a@b.c", hashPassword "s1" "pw", [⟨"auth", "tokA"⟩]⟩
    (some "") "aaaaaaaaaaaaaaaaaaaaaaaa" rfl (Or.inr rfl)

/-- Claim C8: POST /users with the email of an already-registered user
fails with status 400, returns no token and creates no user. -/
theorem duplicate_email_registration_400 (st : AppState)
    (email pw newId salt tok : String)
    (hdup : ∃ u ∈ st.users, u.email = email) :
    postUsers st email pw newId salt tok = (400, none, st) := by
  have h : st.users.any (fun u => u.email == email) = true := by
    obtain ⟨u, hu, he⟩ := hdup
    exact List.any_eq_true.mpr ⟨u, hu, by simp [he]⟩
  simp [postUsers, h]

/-- Witness for C8: re-registering the email already present in stA. -/
theorem duplicate_email_registration_400_witness :
    postUsers stA "a@b.c" "23413uio" "u9" "s9" "t9" = (400, none, stA) :=
  duplicate_email_registration_400 stA "a@b.c" "23413uio" "u9" "s9" "t9"
    ⟨⟨"u1", "a@b.c", hashPassword "s1" "pw", [⟨"auth", "tokA"⟩]⟩, by simp [stA], rfl⟩

/-- Claim C6: a request whose x-auth token is absent, or contained in no
user's token list, attaches no user identity, and GET /users/me answers 401
with an empty body. -/
theorem unauthenticated_request_401 (st : AppState) (xauth : Option String)
    (hno : xauth = none ∨ ∀ v ∈ st.users, ∀ tk ∈ v.tokens, some tk.token ≠ xauth) :
    authenticate st xauth = none ∧ getUsersMe st xauth = (401, none) := by
  have hA : authenticate st xauth = none := by
    cases hno with
    | inl h => subst h; rfl
    | inr h =>
        cases xauth with
        | none => rfl
        | some tok =>
            simp only [authenticate]
            apply List.find?_eq_none.mpr
            intro v hv hcontra
            obtain ⟨t, ht, hpt⟩ := List.any_eq_true.mp hcontra
            have htok : t.token = tok := by
              have hand := (Bool.and_eq_true _ _).mp hpt
              exact beq_iff_eq.mp hand.2
            exact h v hv t ht (by simp [htok])
  exact ⟨hA, by simp [getUsersMe, hA]⟩

/-- Witness for C6: a token held by no user of the concrete state. -/
theorem unauthenticated_request_401_witness :
    authenticate stA (some "intruder") = none ∧
      getUsersMe stA (some "intruder") = (401, none) :=
  unauthenticated_request_401 stA (some "intruder") (Or.inr (by decide))

/-- Claim C1: when a todo with the requested id exists but belongs to a
different user than the authenticated one, GET, PATCH and DELETE on
/todos/:id answer 404 (never 403), PATCH leaves the store unchanged, and
DELETE leaves the store unchanged with the todo still present. -/
theorem todo_of_other_owner_404 (st : AppState) (xauth : Option String) (u : User)
    (id : String) (t : Todo) (body : PatchBody) (now : Int)
    (hauth : authenticate st xauth = some u)
    (ht : t ∈ st.todos) (htid : t.id = id)
    (hother : ∀ x ∈ st.todos, x.id = id → x.ownerId ≠ u.id) :
    (getTodo st xauth id).1 = 404 ∧
      (patchTodo st xauth id body now).1 = 404 ∧
      (patchTodo st xauth id body now).2.2 = st ∧
      (deleteTodo st xauth id).1 = 404 ∧
      (deleteTodo st xauth id).2.2 = st ∧
      t ∈ (deleteTodo st xauth id).2.2.todos := by
  have hfind : findTodoFor st u id = none := by
    apply List.find?_eq_none.mpr
    intro x hx hpx
    have hand := (Bool.and_eq_true _ _).mp hpx
    exact hother x hx (beq_iff_eq.mp hand.1) (beq_iff_eq.mp hand.2)
  cases hval : isValidObjectId id <;>
    simp [getTodo, patchTodo, deleteTodo, hauth, hval, hfind, ht]

def stB : AppState :=
  ⟨[⟨"u1", "a@b.c", hashPassword "s1" "pw", [⟨"auth", "tokA"⟩]⟩,
    ⟨"u2", "b@b.c", hashPassword "s2" "qw", [⟨"auth", "tokB"⟩]⟩],
    [⟨"cccccccccccccccccccccccc", "First todo", false, none, "u2"⟩]⟩

/-- Witness for C1: the first user requesting the second user's todo. -/
theorem todo_of_other_owner_404_witness :
    (getTodo stB (some "tokA") "cccccccccccccccccccccccc").1 = 404 ∧
      (patchTodo stB (some "tokA") "cccccccccccccccccccccccc" ⟨some "x", some true⟩ 7).1 = 404 ∧
      (patchTodo stB (some "tokA") "cccccccccccccccccccccccc" ⟨some "x", some true⟩ 7).2.2 = stB ∧
      (deleteTodo stB (some "tokA") "cccccccccccccccccccccccc").1 = 404 ∧
      (deleteTodo stB (some "tokA") "cccccccccccccccccccccccc").2.2 = stB ∧
      (⟨"cccccccccccccccccccccccc", "First todo", false, none, "u2"⟩ : Todo) ∈
        (deleteTodo stB (some "tokA") "cccccccccccccccccccccccc").2.2.todos :=
  todo_of_other_owner_404 stB (some "tokA")
    ⟨"u1", "a@b.c", hashPassword "s1" "pw", [⟨"auth", "tokA"⟩]⟩
    "cccccccccccccccccccccccc"
    ⟨"cccccccccccccccccccccccc", "First todo", false, none, "u2"⟩
    ⟨some "x", some true⟩ 7 rfl (by simp [stB]) rfl (by decide)

/-- Claim C10: an authenticated GET, DELETE or PATCH on /todos/:id whose id
is not a syntactically valid object id answers 404 — the same status as for
a well-formed but absent id — not 400 and not 500, and the store is left
unchanged. -/
theorem invalid_object_id_404 (st : AppState) (xauth : Option String) (u : User)
    (badId goodId : String) (body : PatchBody) (now : Int)
    (hauth : authenticate st xauth = some u)
    (hbad : isValidObjectId badId = false)
    (hgood : isValidObjectId goodId = true)
    (habsent : ∀ x ∈ st.todos, x.id ≠ goodId) :
    (getTodo st xauth badId).1 = 404 ∧
      (deleteTodo st xauth badId).1 = 404 ∧
      (deleteTodo st xauth badId).2.2 = st ∧
      (patchTodo st xauth badId body now).1 = 404 ∧
      (patchTodo st xauth badId body now).2.2 = st ∧
      (getTodo st xauth goodId).1 = (getTodo st xauth badId).1 ∧
      (getTodo st xauth badId).1 ≠ 400 ∧ (getTodo st xauth badId).1 ≠ 500 := by
  have hfind : findTodoFor st u goodId = none := by
    apply List.find?_eq_none.mpr
    intro x hx hpx
    have hand := (Bool.and_eq_true _ _).mp hpx
    exact habsent x hx (beq_iff_eq.mp hand.1)
  simp [getTodo, deleteTodo, patchTodo, hauth, hbad, hgood, hfind]

/-- Witness for C10: the malformed id 123 next to a well-formed absent
one. -/
theorem invalid_object_id_404_witness :
    (getTodo stB (some "tokA") "123").1 = 404 ∧
      (deleteTodo stB (some "tokA") "123").1 = 404 ∧
      (deleteTodo stB (some "tokA") "123").2.2 = stB ∧
      (patchTodo stB (some "tokA") "123" ⟨none, none⟩ 0).1 = 404 ∧
      (patchTodo stB (some "tokA") "123" ⟨none, none⟩ 0).2.2 = stB ∧
      (getTodo stB (some "tokA") "dddddddddddddddddddddddd").1 =
        (getTodo stB (some "tokA") "123").1 ∧
      (getTodo stB (some "tokA") "123").1 ≠ 400 ∧
      (getTodo stB (some "tokA") "123").1 ≠ 500 :=
  invalid_object_id_404 stB (some "tokA")
    ⟨"u1", "a@b.c", hashPassword "s1" "pw", [⟨"auth", "tokA"⟩]⟩
    "123" "dddddddddddddddddddddddd" ⟨none, none⟩ 0
    rfl rfl rfl (by decide)

/-- Claim C2: a todo returned by a successful PATCH /todos/:id (and stored
back into the todo collection) has completedAt set to the update timestamp
exactly when completed is true, and completedAt null when completed is
false. -/
theorem patch_completedAt_invariant (st : AppState) (xauth : Option String)
    (id : String) (body : PatchBody) (now : Int) (t' : Todo)
    (h : (patchTodo st xauth id body now).2.1 = some t') :
    (t'.completed = true → t'.completedAt = some now) ∧
      (t'.completed = false → t'.completedAt = none) ∧
      t' ∈ (patchTodo st xauth id body now).2.2.todos := by
  cases hauth : authenticate st xauth with
  | none =>
      have hP : patchTodo st xauth id body now = (401, none, st) := by
        simp [patchTodo, hauth]
      rw [hP] at h
      simp at h
  | some u =>
      cases hval : isValidObjectId id with
      | false =>
          have hP : patchTodo st xauth id body now = (404, none, st) := by
            simp [patchTodo, hauth, hval]
          rw [hP] at h
          simp at h
      | true =>
          cases hfind : findTodoFor st u id with
          | none =>
              have hP : patchTodo st xauth id body now = (404, none, st) := by
                simp [patchTodo, hauth, hval, hfind]
              rw [hP] at h
              simp at h
          | some t =>
              have hP : patchTodo st xauth id body now =
                  (200, some (applyPatch now body t),
                    ⟨st.users,
                      updateFirst (fun x => x.id == id && x.ownerId == u.id)
                        (fun _ => applyPatch now body t) st.todos⟩) := by
                simp [patchTodo, hauth, hval, hfind]
              rw [hP] at h
              simp only [Option.some.injEq] at h
              subst h
              refine ⟨?_, ?_, ?_⟩
              · cases hb : body.completed with
                | none => simp [applyPatch, hb]
                | some b => cases b <;> simp [applyPatch, hb]
              · cases hb : body.completed with
                | none => simp [applyPatch, hb]
                | some b => cases b <;> simp [applyPatch, hb]
              · rw [hP]
                exact mem_updateFirst_of_find? _ _ _ t hfind

/-- Witness for C2: the second user completing their own todo at time 42. -/
theorem patch_completedAt_invariant_witness :
    ((⟨"cccccccccccccccccccccccc", "Updated", true, some 42, "u2"⟩ : Todo).completed = true →
      (⟨"cccccccccccccccccccccccc", "Updated", true, some 42, "u2"⟩ : Todo).completedAt = some 42) ∧
    ((⟨"cccccccccccccccccccccccc", "Updated", true, some 42, "u2"⟩ : Todo).completed = false →
      (⟨"cccccccccccccccccccccccc", "Updated", true, some 42, "u2"⟩ : Todo).completedAt = none) ∧
    (⟨"cccccccccccccccccccccccc", "Updated", true, some 42, "u2"⟩ : Todo) ∈
      (patchTodo stB (some "tokB") "cccccccccccccccccccccccc"
        ⟨some "Updated", some true⟩ 42).2.2.todos :=
  patch_completedAt_invariant stB (some "tokB") "cccccccccccccccccccccccc"
    ⟨some "Updated", some true⟩ 42
    ⟨"cccccccccccccccccccccccc", "Updated", true, some 42, "u2"⟩ rfl

def stLogin : AppState :=
  ⟨[⟨"u1", "e@x.io", hashPassword "sa" "username", [⟨"auth", "t0"⟩]⟩], []⟩

/-- Claim C3 counterexample: at a concrete state where the submitted
password does not verify against the stored hash, the login failure status
is the 200 asserted by the repository's own test (sever.test.js line 356),
not the 401 the claim states. -/
theorem login_failure_status_not_401 :
    verifyPassword "shalala" (hashPassword "sa" "username") = false ∧
      (postUsersLogin stLogin "e@x.io" "shalala" "tNew").1 = 200 ∧
      ¬((postUsersLogin stLogin "e@x.io" "shalala" "tNew").1 = 401) := by
  refine ⟨rfl, rfl, ?_⟩
  intro h
  exact absurd h (by decide)

/-- Claim C3 amended: a POST /users/login whose password does not verify
against the stored hash for the given email returns no x-auth header and
leaves the state — in particular the user's token list — unchanged; its
status is 200, the status the repository's test asserts, not 401. -/
theorem login_failure_no_token_no_header (st : AppState) (email pw tok : String)
    (u : User)
    (hfind : st.users.find? (fun v => v.email == email) = some u)
    (hverify : verifyPassword pw u.password = false) :
    postUsersLogin st email pw tok = (200, none, st) := by
  simp [postUsersLogin, hfind, hverify]

/-- Witness for the amended C3 at the concrete failed-login state. -/
theorem login_failure_no_token_no_header_witness :
    postUsersLogin stLogin "e@x.io" "shalala" "tNew" = (200, none, stLogin) :=
  login_failure_no_token_no_header stLogin "e@x.io" "shalala" "tNew"
    ⟨"u1", "e@x.io", hashPassword "sa" "username", [⟨"auth", "t0"⟩]⟩ rfl rfl

/-- Claim C9: a successful POST /users persists for the new user exactly
the salted hash of the submitted password, and the persisted digest differs
from the submitted plaintext: the plaintext is never stored. -/
theorem password_stored_as_salted_hash (st : AppState)
    (email pw newId salt tok : String)
    (hnew : st.users.any (fun u => u.email == email) = false)
    (hemail : validEmail email = true) (hpw : 0 < pw.length) :
    postUsers st email pw newId salt tok =
      (200, some tok,
        ⟨st.users ++ [⟨newId, email, hashPassword salt pw, [⟨"auth", tok⟩]⟩],
          st.todos⟩) ∧
      (hashPassword salt pw).digest ≠ pw := by
  constructor
  · simp [postUsers, hnew, hemail, hpw]
  · intro hcontra
    have hlen := congrArg String.length hcontra
    have h5 : ("hash." : String).length = 5 := rfl
    have h1 : ("." : String).length = 1 := rfl
    simp [hashPassword, String.length_append, h5, h1] at hlen

/-- Witness for C9: registering a fresh user over the empty store. -/
theorem password_stored_as_salted_hash_witness :
    postUsers ⟨[], []⟩ "example@lala.com" "username" "u1" "sa" "t1" =
      (200, some "t1",
        ⟨[⟨"u1", "example@lala.com", hashPassword "sa" "username", [⟨"auth", "t1"⟩]⟩],
          []⟩) ∧
      (hashPassword "sa" "username").digest ≠ "username" :=
  password_stored_as_salted_hash ⟨[], []⟩ "example@lala.com" "username" "u1" "sa" "t1"
    rfl (by decide) (by decide)

/-- Claim C5: a successful POST /users/login appends the record with access
auth and the returned x-auth token to that user's persisted token list, and
a subsequent DELETE /users/me/token presenting that token removes it,
restoring the original list. -/
theorem login_appends_token_logout_removes (st : AppState) (email pw tok : String)
    (pre post : List User) (u : User)
    (hsplit : st.users = pre ++ u :: post)
    (hemail : u.email = email)
    (hpre_email : ∀ v ∈ pre, v.email ≠ email)
    (hpre_id : ∀ v ∈ pre, v.id ≠ u.id)
    (hverify : verifyPassword pw u.password = true)
    (hfresh : ∀ v ∈ st.users, ∀ tk ∈ v.tokens, tk.token ≠ tok) :
    postUsersLogin st email pw tok =
      (200, some tok,
        ⟨pre ++ ⟨u.id, u.email, u.password, u.tokens ++ [⟨"auth", tok⟩]⟩ :: post,
          st.todos⟩) ∧
      deleteUsersMeToken
          ⟨pre ++ ⟨u.id, u.email, u.password, u.tokens ++ [⟨"auth", tok⟩]⟩ :: post,
            st.todos⟩ (some tok) =
        (200, ⟨pre ++ u :: post, st.todos⟩) := by
  have hfind : st.users.find? (fun v => v.email == email) = some u := by
    rw [hsplit]
    exact find?_skip _ pre u post
      (fun v hv => by simp [hpre_email v hv]) (by simp [hemail])
  constructor
  · have hupd : updateFirst (fun v => v.id == u.id)
        (fun v => ⟨v.id, v.email, v.password, v.tokens ++ [⟨"auth", tok⟩]⟩) st.users =
        pre ++ ⟨u.id, u.email, u.password, u.tokens ++ [⟨"auth", tok⟩]⟩ :: post := by
      rw [hsplit]
      exact updateFirst_skip _ _ pre u post
        (fun v hv => by simp [hpre_id v hv]) (by simp)
    simp [postUsersLogin, hfind, hverify, hupd]
  · have hauth2 : authenticate
        ⟨pre ++ ⟨u.id, u.email, u.password, u.tokens ++ [⟨"auth", tok⟩]⟩ :: post,
          st.todos⟩ (some tok) =
        some ⟨u.id, u.email, u.password, u.tokens ++ [⟨"auth", tok⟩]⟩ := by
      simp only [authenticate]
      refine find?_skip _ pre _ post ?_ ?_
      · intro v hv
        simp only [List.any_eq_false]
        intro t ht
        simp [hfresh v (by rw [hsplit]; exact List.mem_append_left _ hv) t ht]
      · simp
    have hmemu : u ∈ st.users := by
      rw [hsplit]
      exact List.mem_append_right _ (List.mem_cons_self u post)
    have hfilter : (u.tokens ++ [(⟨"auth", tok⟩ : TokenRec)]).filter
        (fun t => t.token != tok) = u.tokens := by
      rw [List.filter_append]
      have h1 : u.tokens.filter (fun t => t.token != tok) = u.tokens := by
        apply List.filter_eq_self.mpr
        intro t ht
        simp [hfresh u hmemu t ht]
      have h2 : [(⟨"auth", tok⟩ : TokenRec)].filter (fun t => t.token != tok) =
          [] := by simp
      rw [h1, h2, List.append_nil]
    have hupd2 : updateFirst (fun v => v.id == u.id)
        (fun v => ⟨v.id, v.email, v.password, v.tokens.filter (fun t => t.token != tok)⟩)
        (pre ++ ⟨u.id, u.email, u.password, u.tokens ++ [⟨"auth", tok⟩]⟩ :: post) =
        pre ++ u :: post := by
      rw [updateFirst_skip _ _ pre _ post (fun v hv => by simp [hpre_id v hv]) (by simp)]
      simp only [hfilter]
    simp only [deleteUsersMeToken, hauth2]
    rw [hupd2]

/-- Witness for C5: logging the concrete user in with a fresh token and
logging out with it again. -/
theorem login_appends_token_logout_removes_witness :
    postUsersLogin stLogin "e@x.io" "username" "t1" =
      (200, some "t1",
        ⟨[⟨"u1", "e@x.io", hashPassword "sa" "username",
            [⟨"auth", "t0"⟩] ++ [⟨"auth", "t1"⟩]⟩],
          []⟩) ∧
      deleteUsersMeToken
          ⟨[⟨"u1", "e@x.io", hashPassword "sa" "username",
              [⟨"auth", "t0"⟩] ++ [⟨"auth", "t1"⟩]⟩],
            []⟩ (some "t1") =
        (200, ⟨[⟨"u1", "e@x.io", hashPassword "sa" "username", [⟨"auth", "t0"⟩]⟩], []⟩) :=
  login_appends_token_logout_removes stLogin "e@x.io" "username" "t1" [] []
    ⟨"u1", "e@x.io", hashPassword "sa" "username", [⟨"auth", "t0"⟩]⟩
    rfl rfl (by simp) (by simp) rfl (by decide)
